import Mathlib

/-
Verification of the transaction object model of libraries/chain/include/
eos/chain/transaction.hpp: the core transaction shape, the TaPoS freshness
protocol, digests and signing, the message-container operations, the
execution-output tree, and the canonical (fc raw) serialization declared by
the FC_REFLECT / FC_REFLECT_DERIVED lines at the bottom of the header.

Serialized values are modelled as streams of field atoms (List Nat): each
scalar field contributes one atom holding its value, and each sequence
contributes a length atom followed by its elements' atoms.  This captures
exactly what the header's reflection macros fix — which fields are emitted
and in which order — without committing to fc's byte-level varint layout,
which lives outside this repository.
-/

namespace Eos

/-- Modelled from the spec: `types::Message` (message.hpp is not part of the
source tree).  A message carries a logical type name and a serialized
payload; names and bytes are modelled as naturals. -/
structure Message where
  type : Nat
  data : List Nat
deriving DecidableEq

/-- Modelled from the spec: `types::Transaction` (types.hpp is not part of
the source tree).  An ordered sequence of messages, a 16-bit
reference-block number, a 32-bit reference-block prefix (field
`ref_block_prefix` in the source), and an expiration timestamp. -/
structure Transaction where
  messages : List Message
  refBlockNum : Nat
  refBlockPrefix : Nat
  expiration : Nat
deriving DecidableEq

/-- Modelled from the spec: a default-constructed transaction — empty
message sequence, zero reference fields, zero expiration. -/
def defaultTransaction : Transaction :=
  { messages := [], refBlockNum := 0, refBlockPrefix := 0, expiration := 0 }

/-- Modelled from the spec: the external signing primitive's output, an
opaque value determined by the signing key and the digest signed.  It is
modelled as the (injective) pair of the two. -/
structure Signature where
  key : Nat
  digest : List Nat
deriving DecidableEq

/-- Modelled from the spec: `types::SignedTransaction` (types.hpp is not
part of the source tree) — the core transaction plus an ordered sequence of
signatures.  `chain::SignedTransaction` adds no fields of its own. -/
structure SignedTransaction extends Transaction where
  signatures : List Signature
deriving DecidableEq

/-- `GeneratedTransaction` (transaction.hpp lines 117–132): a core
transaction extended with a sequential generated-transaction id. -/
structure GeneratedTransaction extends Transaction where
  id : Nat
deriving DecidableEq

/-- Modelled from the spec: a block id (`block_id_type`, a 20-byte hash
living outside this repository).  Its first 4 bytes encode the block
height, bytes 4–7 are the prefix slice, and the remaining bytes do not
participate in any operation of this header. -/
structure BlockId where
  b0 : Nat
  b1 : Nat
  b2 : Nat
  b3 : Nat
  b4 : Nat
  b5 : Nat
  b6 : Nat
  b7 : Nat
  rest : List Nat
deriving DecidableEq

/-- The block height encoded in the first 4 bytes of a block id. -/
def BlockId.height (b : BlockId) : Nat :=
  ((b.b0 * 256 + b.b1) * 256 + b.b2) * 256 + b.b3

/-- Bytes 4–7 of a block id assembled into the 32-bit prefix word. -/
def BlockId.prefixWord (b : BlockId) : Nat :=
  ((b.b4 * 256 + b.b5) * 256 + b.b6) * 256 + b.b7

/-- Modelled from the spec: `transaction_set_reference_block` (declared at
transaction.hpp line 70, body in transaction.cpp which is not part of the
source tree).  Stores the low 16 bits of the reference block's height into
`ref_block_num` and bytes 4–7 of its id into `ref_block_prefix`. -/
def transaction_set_reference_block (t : Transaction) (b : BlockId) : Transaction :=
  { t with refBlockNum := b.height % 65536, refBlockPrefix := b.prefixWord }

/-- Modelled from the spec: `transaction_verify_reference_block` (declared
at transaction.hpp line 72, body in transaction.cpp which is not part of
the source tree).  Recomputes the low-16-bit height and the byte-4–7 slice
and returns true iff both match the stored values; a predicate, never a
failure. -/
def transaction_verify_reference_block (t : Transaction) (b : BlockId) : Bool :=
  t.refBlockNum == b.height % 65536 && t.refBlockPrefix == b.prefixWord

/-- Modelled from the spec: `Message::set` (message.hpp is not part of the
source tree) — overwrites the message's logical type and its payload with
the serialized value. -/
def Message.set (m : Message) (ty : Nat) (v : List Nat) : Message :=
  { m with type := ty, data := v }

/-- `transaction_set_message` (transaction.hpp lines 74–79): copies the
message at `index`, sets its type and serialized value, and writes it back.
The element access is fallible — an out-of-range index is a failure
(spec §7, IndexOutOfRange) — so the operation returns an `Option`. -/
def transaction_set_message (t : Transaction) (index : Nat) (ty : Nat) (v : List Nat) :
    Option Transaction :=
  if h : index < t.messages.length then
    some { t with messages := t.messages.set index ((t.messages.get ⟨index, h⟩).set ty v) }
  else
    none

/-- `transaction_clear` (transaction.hpp lines 100–102): clears the message
sequence, leaving every other field alone. -/
def transaction_clear (t : Transaction) : Transaction :=
  { t with messages := [] }

/-- The canonical encoding of a sequence: a length atom, then the
elements' atoms in order. -/
def encList {α : Type} (enc : α → List Nat) (xs : List α) : List Nat :=
  xs.length :: (xs.map enc).flatten

/-- The canonical encoding of a message: its type, then its payload as a
length-prefixed byte sequence. -/
def encMessage (m : Message) : List Nat :=
  m.type :: m.data.length :: m.data

/-- Modelled from the spec: the canonical encoding of the core transaction
fields (spec §3 / §6) — the message sequence, then `ref_block_num`,
`ref_block_prefix` and `expiration`. -/
def encTransaction (t : Transaction) : List Nat :=
  encList encMessage t.messages ++ [t.refBlockNum, t.refBlockPrefix, t.expiration]

/-- The canonical encoding of one signature. -/
def encSignature (s : Signature) : List Nat :=
  s.key :: s.digest.length :: s.digest

/-- `FC_REFLECT_DERIVED(eos::chain::SignedTransaction, (eos::types::SignedTransaction), )`
(transaction.hpp line 219): base signed-transaction fields only — the core
transaction fields, then the signature sequence. -/
def encSignedTransaction (s : SignedTransaction) : List Nat :=
  encTransaction s.toTransaction ++ encList encSignature s.signatures

/-- `FC_REFLECT(eos::chain::GeneratedTransaction, (id))` (transaction.hpp
line 218): plain FC_REFLECT serializes exactly the listed members — only
`id`.  Unlike the header's other derived types, no FC_REFLECT_DERIVED names
the base class, so the base transaction fields are not emitted. -/
def encGeneratedTransaction (g : GeneratedTransaction) : List Nat :=
  [g.id]

/-- The encoding the spec's words prescribe for `GeneratedTransaction`
(spec §6: base transaction fields, then `id`), stated for comparison with
`encGeneratedTransaction`, the encoding the source declares. -/
def encGeneratedTransactionSpec (g : GeneratedTransaction) : List Nat :=
  encTransaction g.toTransaction ++ [g.id]

/-- The decoder matching `encGeneratedTransaction`: it reads only the `id`
atom, so every base transaction field of the decoded value is
default-constructed. -/
def decGeneratedTransaction (s : List Nat) : Option (GeneratedTransaction × List Nat) :=
  match s with
  | [] => none
  | i :: r => some ({ defaultTransaction with id := i }, r)

/-- Modelled from the spec: `transaction_digest` (declared at
transaction.hpp line 68, body in transaction.cpp which is not part of the
source tree) — a deterministic hash over the canonical encoding of the core
transaction fields, signatures excluded.  The external hash primitive is
modelled as the identity on canonical encodings, which is deterministic and
injective. -/
def transaction_digest (t : Transaction) : List Nat :=
  encTransaction t

/-- Modelled from the spec: `SignedTransaction::id` (declared at
transaction.hpp line 145, body in transaction.cpp which is not part of the
source tree) — the canonical identifier, derived from `transaction_digest`
and independent of the signatures. -/
def SignedTransaction.id (s : SignedTransaction) : List Nat :=
  transaction_digest s.toTransaction

/-- Modelled from the spec: `SignedTransaction::sig_digest` (declared at
transaction.hpp line 148, body in transaction.cpp which is not part of the
source tree) — combines the chain identifier with `transaction_digest` into
the digest that is actually signed. -/
def SignedTransaction.sigDigest (s : SignedTransaction) (chainId : Nat) : List Nat :=
  chainId :: transaction_digest s.toTransaction

/-- Modelled from the spec: the external cryptographic provider's signing
primitive, producing a signature over a digest with a private key. -/
def signFn (key : Nat) (d : List Nat) : Signature :=
  { key := key, digest := d }

/-- Modelled from the spec: the mutating `SignedTransaction::sign` overload
(declared at transaction.hpp line 151, body in transaction.cpp which is not
part of the source tree) — signs `sig_digest(*this, chain_id)`, appends the
signature, and returns it.  The updated transaction is returned alongside
the signature. -/
def SignedTransaction.signAppend (s : SignedTransaction) (key chainId : Nat) :
    SignedTransaction × Signature :=
  let σ := signFn key (s.sigDigest chainId)
  ({ s with signatures := s.signatures ++ [σ] }, σ)

/-- Modelled from the spec: the const `SignedTransaction::sign` overload
(declared at transaction.hpp line 154, body in transaction.cpp which is not
part of the source tree) — returns the signature over
`sig_digest(*this, chain_id)` without mutating; being a pure function of
the transaction, it leaves every field unchanged. -/
def SignedTransaction.signConst (s : SignedTransaction) (key chainId : Nat) : Signature :=
  signFn key (s.sigDigest chainId)

/-- `SignedTransaction::clear` (transaction.hpp line 161): calls
`transaction_clear` on the base and clears the signature sequence. -/
def SignedTransaction.clear (s : SignedTransaction) : SignedTransaction :=
  { s with toTransaction := transaction_clear s.toTransaction, signatures := [] }

/-- `PendingInlineTransaction` (transaction.hpp lines 168–173): a core
transaction with no new fields. -/
structure PendingInlineTransaction extends Transaction
deriving DecidableEq

mutual

/-- `MessageOutput` (transaction.hpp lines 188–192): the output of applying
one message — accounts notified, the inline transaction applied after
notify, and the deferred generated transactions. -/
inductive MessageOutput : Type where
  | mk (notify : List NotifyOutput) (inlineTrx : InlineTransaction)
      (deferredTrxs : List GeneratedTransaction) : MessageOutput

/-- `NotifyOutput` (transaction.hpp lines 194–197): an account name and the
output produced by notifying it. -/
inductive NotifyOutput : Type where
  | mk (name : Nat) (output : MessageOutput) : NotifyOutput

/-- `InlineTransaction` (transaction.hpp lines 176–181): a core transaction
plus the per-message outputs produced when it was executed. -/
inductive InlineTransaction : Type where
  | mk (trx : Transaction) (output : List MessageOutput) : InlineTransaction

end

/-- The transaction body of an inline transaction. -/
def InlineTransaction.trx : InlineTransaction → Transaction
  | .mk t _ => t

/-- The per-message outputs of an inline transaction. -/
def InlineTransaction.output : InlineTransaction → List MessageOutput
  | .mk _ o => o

/-- The converting constructor `InlineTransaction(const PendingInlineTransaction&)`
(transaction.hpp line 177): copies the base transaction, and the output
vector default-constructs to empty. -/
def InlineTransaction.ofPending (p : PendingInlineTransaction) : InlineTransaction :=
  .mk p.toTransaction []

/-- The default constructor `InlineTransaction()` (transaction.hpp line
178): default base transaction, empty output vector. -/
def InlineTransaction.mkDefault : InlineTransaction :=
  .mk defaultTransaction []

/-- `ProcessedTransaction` (transaction.hpp lines 199–204): a signed
transaction plus its per-message outputs. -/
structure ProcessedTransaction extends SignedTransaction where
  output : List MessageOutput

/-- The converting constructor `ProcessedTransaction(const SignedTransaction&)`
(transaction.hpp line 200). -/
def ProcessedTransaction.ofSigned (s : SignedTransaction) : ProcessedTransaction :=
  { toSignedTransaction := s, output := [] }

/-- `ProcessedGeneratedTransaction` (transaction.hpp lines 206–213): a
generated-transaction id plus per-message outputs.  It does not extend the
transaction type: it has no transaction body fields at all. -/
structure ProcessedGeneratedTransaction where
  id : Nat
  output : List MessageOutput

/-- The converting constructor
`ProcessedGeneratedTransaction(const GeneratedTransaction&)`
(transaction.hpp line 208): keeps only the id; the output vector
default-constructs to empty. -/
def ProcessedGeneratedTransaction.ofGenerated (g : GeneratedTransaction) :
    ProcessedGeneratedTransaction :=
  { id := g.id, output := [] }

/-- A concrete generated transaction with a non-trivial body, used to
evaluate the serialization declared at transaction.hpp line 218. -/
def gEx : GeneratedTransaction :=
  { messages := [{ type := 1, data := [2, 3] }]
    refBlockNum := 4
    refBlockPrefix := 5
    expiration := 6
    id := 7 }

/-- A concrete transaction with one message. -/
def tEx : Transaction :=
  { messages := [{ type := 1, data := [2] }]
    refBlockNum := 3
    refBlockPrefix := 4
    expiration := 5 }

/-- A concrete signed transaction with a non-trivial body. -/
def sEx : SignedTransaction :=
  { messages := [{ type := 1, data := [2] }]
    refBlockNum := 3
    refBlockPrefix := 4
    expiration := 5
    signatures := [] }

/-- C1: the claim says the canonical encoding of a `GeneratedTransaction`
is the base transaction fields followed by its id, but transaction.hpp line
218 uses plain `FC_REFLECT(eos::chain::GeneratedTransaction, (id))`, which
emits only the id: at the concrete value `gEx` (one message, nonzero
reference fields, id 7) the encoding is the single atom `[7]` and differs
from the base-fields-then-id sequence the claim prescribes. -/
theorem C1_generatedTransaction_encoding_omits_base :
    encGeneratedTransaction gEx = [7] ∧
      encGeneratedTransaction gEx ≠ encGeneratedTransactionSpec gEx := by
  exact ⟨rfl, by decide⟩

/-- C2: `verify_reference_block t b` is true exactly when the stored
`ref_block_num` equals the low 16 bits of the height encoded in the first
4 bytes of `b` and the stored `ref_block_prefix` equals bytes 4–7 of `b`;
it is a total boolean predicate, so any mismatch yields `false` rather than
a failure, and it holds immediately after `set_reference_block t b`. -/
theorem C2_verify_reference_block_spec (t : Transaction) (b : BlockId) :
    (transaction_verify_reference_block t b = true ↔
      (t.refBlockNum = b.height % 65536 ∧ t.refBlockPrefix = b.prefixWord)) ∧
      transaction_verify_reference_block (transaction_set_reference_block t b) b = true := by
  constructor
  · simp [transaction_verify_reference_block]
  · simp [transaction_verify_reference_block, transaction_set_reference_block]

/-- C3: the claim says every structure of §6 round-trips through the
canonical encoding, but a `GeneratedTransaction` does not: by
transaction.hpp line 218 its encoding carries only the id, so decoding the
encoding of `gEx` yields a value whose base transaction fields are
default-constructed — its message is lost — and which therefore differs
from `gEx`. -/
theorem C3_generatedTransaction_roundtrip_fails :
    decGeneratedTransaction (encGeneratedTransaction gEx) =
        some ({ defaultTransaction with id := 7 }, []) ∧
      ({ defaultTransaction with id := 7 } : GeneratedTransaction) ≠ gEx := by
  exact ⟨rfl, by decide⟩

/-- C4: `set_message t index ty v` fails with an index-out-of-range error
when `index` is not a valid index into the message sequence, and when it is
in bounds it replaces the message at `index` with a message of the given
type carrying the serialized value. -/
theorem C4_set_message_spec (t : Transaction) (index ty : Nat) (v : List Nat) :
    (t.messages.length ≤ index → transaction_set_message t index ty v = none) ∧
      (∀ h : index < t.messages.length,
        transaction_set_message t index ty v =
          some { t with
            messages := t.messages.set index ((t.messages.get ⟨index, h⟩).set ty v) }) := by
  constructor
  · intro h
    simp [transaction_set_message, Nat.not_lt.mpr h]
  · intro h
    simp [transaction_set_message, h]

/-- C4 witness: on the one-message transaction `tEx`, index 1 is out of
range and fails, and index 0 replaces the message with `⟨9, [8]⟩`. -/
theorem C4_set_message_spec_witness :
    transaction_set_message tEx 1 9 [8] = none ∧
      transaction_set_message tEx 0 9 [8] =
        some { messages := [{ type := 9, data := [8] }]
               refBlockNum := 3, refBlockPrefix := 4, expiration := 5 } := by
  refine ⟨(C4_set_message_spec tEx 1 9 [8]).1 (by decide), ?_⟩
  exact (C4_set_message_spec tEx 0 9 [8]).2 (by decide)

/-- C5: `SignedTransaction::clear` empties the message and signature
sequences, leaves `ref_block_num`, `ref_block_prefix` and `expiration`
unchanged, and the cleared transaction's id equals the id of a freshly
constructed transaction with no messages and the same non-message
fields. -/
theorem C5_clear_spec (s : SignedTransaction) :
    s.clear.messages = [] ∧ s.clear.signatures = [] ∧
      s.clear.refBlockNum = s.refBlockNum ∧
      s.clear.refBlockPrefix = s.refBlockPrefix ∧
      s.clear.expiration = s.expiration ∧
      s.clear.id =
        SignedTransaction.id
          { messages := [], refBlockNum := s.refBlockNum,
            refBlockPrefix := s.refBlockPrefix, expiration := s.expiration,
            signatures := [] } := by
  exact ⟨rfl, rfl, rfl, rfl, rfl, rfl⟩

/-- C6: `transaction_digest` reads only the core transaction fields: two
signed transactions with the same core fields but arbitrary (differing)
signature sequences have the same digest, and appending a signature leaves
the digest unchanged. -/
theorem C6_transaction_digest_signature_invariant (t : Transaction)
    (sigs sigs' : List Signature) (σ : Signature) :
    transaction_digest (SignedTransaction.mk t sigs).toTransaction =
        transaction_digest (SignedTransaction.mk t sigs').toTransaction ∧
      transaction_digest
          ({ SignedTransaction.mk t sigs with
              signatures := (SignedTransaction.mk t sigs).signatures ++ [σ] }).toTransaction =
        transaction_digest (SignedTransaction.mk t sigs).toTransaction := by
  exact ⟨rfl, rfl⟩

/-- C7: the signing digest is chain-bound — for any transaction, distinct
chain identifiers yield distinct signing digests, so a signature computed
for one chain is not valid under another chain's signing digest. -/
theorem C7_sig_digest_chain_separation (s : SignedTransaction) (c c' : Nat)
    (h : c ≠ c') : s.sigDigest c ≠ s.sigDigest c' := by
  intro heq
  apply h
  simpa [SignedTransaction.sigDigest] using heq

/-- C7 witness: on the concrete transaction `sEx`, the signing digests for
chains 0 and 1 differ. -/
theorem C7_sig_digest_chain_separation_witness :
    sEx.sigDigest 0 ≠ sEx.sigDigest 1 :=
  C7_sig_digest_chain_separation sEx 0 1 (by decide)

/-- C8: the mutating sign overload computes the signature over
`sig_digest(*this, chain_id)`, appends exactly that signature to the
signature sequence while leaving the core transaction fields unchanged, and
returns it; the const overload returns the same signature and, being a pure
function of the transaction, mutates nothing. -/
theorem C8_sign_overloads_spec (s : SignedTransaction) (key chainId : Nat) :
    (s.signAppend key chainId).2 = signFn key (s.sigDigest chainId) ∧
      (s.signAppend key chainId).1.toTransaction = s.toTransaction ∧
      (s.signAppend key chainId).1.signatures =
        s.signatures ++ [signFn key (s.sigDigest chainId)] ∧
      s.signConst key chainId = signFn key (s.sigDigest chainId) := by
  exact ⟨rfl, rfl, rfl, rfl⟩

/-- C9: constructing an `InlineTransaction` from a
`PendingInlineTransaction` copies every base transaction field unchanged
and initializes the output sequence to empty; the default-constructed
`InlineTransaction` also has an empty output sequence. -/
theorem C9_inline_transaction_ctors (p : PendingInlineTransaction) :
    (InlineTransaction.ofPending p).trx = p.toTransaction ∧
      (InlineTransaction.ofPending p).output = [] ∧
      InlineTransaction.mkDefault.output = [] := by
  exact ⟨rfl, rfl, rfl⟩

/-- C10: constructing a `ProcessedGeneratedTransaction` from a
`GeneratedTransaction` keeps exactly the id and an empty output sequence,
whatever the source's transaction body fields were — the processed envelope
carries no transaction body at all. -/
theorem C10_processed_generated_transaction_ctor (t : Transaction) (i : Nat) :
    ProcessedGeneratedTransaction.ofGenerated (GeneratedTransaction.mk t i) =
      { id := i, output := [] } := by
  exact rfl

end Eos
